import Mathlib

/-!
Shallow embedding of the two monitor plugins of this repository:
the PostgreSQL statistics poller (scalyr_agent/builtin_monitors/postgres_monitor.py)
and the Windows process metrics poller
(scalyr_agent/builtin_monitors/windows_process_metrics.py),
together with theorems settling the specification claims about them.

Modelling conventions:
- Python integers are Lean Int.  Python 2 integer division and modulus have
  floor semantics; every divisor in this code is a positive literal, for which
  Lean Int division and modulus agree with Python.
- Python datetime values are represented by their signed difference from
  1970-01-01T00:00:00 in microseconds, the only aspect the code uses.
- Fallible Python code is modelled with the PyResult sum: ok for a normal
  return, raised for a propagating exception.
- The database driver (pg8000) and the process inquiry library (psutil) are
  external collaborators; their behaviour in one gather cycle is an explicit
  environment value passed to the embedded functions.
- Logging (logger.warning, logger.error) and metric emission (emit_value) are
  recorded in an explicit trace.
-/

/-- The exceptions distinguished by the embedded code.
dbError: the exception raised by the non-2006 OperationalError branch of the
postgres monitor (the source there evaluates a string plus an int errcode,
which itself raises a TypeError in Python 2; either way an uncaught exception
propagates from exactly that point).
typeError: zip of a field list with None.
attrError: calling a method on None, or reading a missing member.
genericExn: any other exception from the database driver.
assertionError and noSuchProcess belong to the process poller. -/
inductive PyExn where
  | dbError
  | typeError
  | attrError
  | genericExn
  | assertionError
  | noSuchProcess
deriving DecidableEq

/-- Result of running a piece of Python code: a normal return or a raised,
propagating exception. -/
inductive PyResult (α : Type) where
  | ok (a : α)
  | raised (e : PyExn)
deriving DecidableEq

namespace Postgres

/-- Behaviour of one pg8000.connect attempt, as seen by PostgreSQLDb.connect:
success; a pg8000.Error (caught: both handles set to None, one error line
logged); or any other exception (one error line logged, then re-raised). -/
inductive ConnectOutcome where
  | success
  | pgError
  | otherError
deriving DecidableEq

/-- Behaviour of one query round (cursor.execute plus fetch): a successful
result, a pg8000.OperationalError carrying an errcode, or any other driver
exception, which the source never catches. -/
inductive QueryOutcome (α : Type) where
  | ok (a : α)
  | opError (errcode : Int)
  | exn
deriving DecidableEq

/-- Environment of one gather cycle: how the driver behaves at each call.
connectOutcome is indexed by the number of connect calls made so far, since
reconnect can run up to three times in one cycle.  statsQuery yields the
column names of the statistics view and, optionally, the single fetched row
(none models a fetchone that found no matching row).  statsKeyOrder is the
iteration order CPython uses for the keys of the _database_stats inner dict;
Python guarantees only that it is some fixed permutation of the keys. -/
structure PgEnv where
  connectOutcome : Nat → ConnectOutcome
  sizeQuery : QueryOutcome Int
  statsQuery : QueryOutcome (List String × Option (List Int))
  statsKeyOrder : List String

/-- The mutable fields of the PostgreSQLDb wrapper that the claims are about:
the connection handle self._db and the cursor self._cursor.  calls is
instrumentation counting connect attempts, used to index the environment. -/
structure PgState where
  db : Option Unit
  cursor : Option Unit
  calls : Nat
deriving DecidableEq

/-- One emit_value call: metric name, value and the optional extra_fields
dimension pair. -/
structure Emission where
  metric_name : String
  value : Int
  extra_fields : Option (String × String)
deriving DecidableEq

/-- Observable side effects of one gather cycle: emissions in order, the
number of warning-level and error-level log lines, and the number of
reconnect invocations. -/
structure PgTrace where
  emissions : List Emission
  warnings : Nat
  errors : Nat
  reconnects : Nat
deriving DecidableEq

def PgTrace.init : PgTrace := ⟨[], 0, 0, 0⟩

/-- The _database_stats table of PostgreSQLDb, in source declaration order:
column name, metric name, and the optional dimension pair (present exactly
for the source entries of length three). -/
def database_stats : List (String × String × Option (String × String)) :=
  [ ("numbackends", "postgres.database.connections", none),
    ("xact_commit", "postgres.database.transactions", some ("result", "committed")),
    ("xact_rollback", "postgres.database.transactions", some ("result", "rolledback")),
    ("blks_read", "postgres.database.disk_blocks", some ("type", "read")),
    ("blks_hit", "postgres.database.disk_blocks", some ("type", "hit")),
    ("tup_returned", "postgres.database.query_rows", some ("op", "returned")),
    ("tup_fetched", "postgres.database.query_rows", some ("op", "fetched")),
    ("tup_inserted", "postgres.database.query_rows", some ("op", "inserted")),
    ("tup_updated", "postgres.database.query_rows", some ("op", "updated")),
    ("tup_deleted", "postgres.database.query_rows", some ("op", "deleted")),
    ("temp_files", "postgres.database.temp_files", none),
    ("temp_bytes", "postgres.database.temp_bytes", none),
    ("deadlocks", "postgres.database.deadlocks", none),
    ("blk_read_time", "postgres.database.blocks_op_time", some ("op", "read")),
    ("blk_write_time", "postgres.database.blocks_op_time", some ("op", "write")),
    ("stats_reset", "postgres.database.stats_reset", none) ]

/-- The keys of the _database_stats table in declaration order. -/
def statKeys : List String := database_stats.map (·.1)

/-- PostgreSQLDb.close: closes cursor and connection, sets both to None. -/
def close (s : PgState) : PgState := { s with db := none, cursor := none }

/-- PostgreSQLDb.connect.  On success both handles are set (the version
bookkeeping of _gather_db_information is omitted: it catches all its own
exceptions and only sets version fields no claim mentions).  On a
pg8000.Error both handles are set to None and one error line is logged.  On
any other exception one error line is logged and the exception propagates,
leaving the handle fields as they were. -/
def connect (env : PgEnv) (s : PgState) (t : PgTrace) :
    PgState × PgTrace × PyResult Unit :=
  match env.connectOutcome s.calls with
  | .success =>
      ({ s with db := some (), cursor := some (), calls := s.calls + 1 }, t, .ok ())
  | .pgError =>
      ({ s with db := none, cursor := none, calls := s.calls + 1 },
       { t with errors := t.errors + 1 }, .ok ())
  | .otherError =>
      ({ s with calls := s.calls + 1 },
       { t with errors := t.errors + 1 }, .raised .genericExn)

/-- PostgreSQLDb.is_connected: the connection handle is not None. -/
def is_connected (s : PgState) : Bool := s.db.isSome

/-- PostgreSQLDb.reconnect: close then connect.  The reconnects counter of
the trace is instrumentation recording the invocation. -/
def reconnect (env : PgEnv) (s : PgState) (t : PgTrace) :
    PgState × PgTrace × PyResult Unit :=
  connect env (close s) { t with reconnects := t.reconnects + 1 }

/-- Lookup in a Python dict built from an association list by successive
assignment: on duplicate keys the last assignment wins. -/
def pyDictGet (pairs : List (String × Int)) (k : String) : Option Int :=
  List.lookup k pairs.reverse

/-- PostgreSQLDb._fields_and_data_to_dict.  The source iterates
zip(fields, data); when data is None (a fetchone that matched no row) the
zip call itself raises a TypeError. -/
def fields_and_data_to_dict (fields : List String) (data : Option (List Int)) :
    PyResult (List (String × Int)) :=
  match data with
  | none => .raised .typeError
  | some vs => .ok (fields.zip vs)

/-- PostgreSQLDb.retrieve_database_size.  A cursor of None raises an
AttributeError.  On a successful query the single cell is returned.  An
OperationalError with errcode 2006 triggers reconnect and returns None
(an exception from that reconnect propagates); any other errcode raises
from the handler, and other driver exceptions propagate uncaught. -/
def retrieve_database_size (env : PgEnv) (s : PgState) (t : PgTrace) :
    PgState × PgTrace × PyResult (Option Int) :=
  match s.cursor with
  | none => (s, t, .raised .attrError)
  | some _ =>
    match env.sizeQuery with
    | .ok v => (s, t, .ok (some v))
    | .exn => (s, t, .raised .genericExn)
    | .opError errcode =>
      if errcode ≠ 2006 then (s, t, .raised .dbError)
      else
        match reconnect env s t with
        | (s2, t2, .ok _) => (s2, t2, .ok none)
        | (s2, t2, .raised e) => (s2, t2, .raised e)

/-- PostgreSQLDb._retrieve_database_table_stats for the single table
pg_stat_database.  The OperationalError handling mirrors
retrieve_database_size.  On success the fields and fetched row are combined
by _fields_and_data_to_dict (raising a TypeError when no row matched) and
the declared keys present in the data are extracted, iterating the table
keys in the interpreter dict order. -/
def retrieve_database_table_stats (env : PgEnv) (s : PgState) (t : PgTrace) :
    PgState × PgTrace × PyResult (Option (List (String × Int))) :=
  match s.cursor with
  | none => (s, t, .raised .attrError)
  | some _ =>
    match env.statsQuery with
    | .exn => (s, t, .raised .genericExn)
    | .opError errcode =>
      if errcode ≠ 2006 then (s, t, .raised .dbError)
      else
        match reconnect env s t with
        | (s2, t2, .ok _) => (s2, t2, .ok none)
        | (s2, t2, .raised e) => (s2, t2, .raised e)
    | .ok (fields, data) =>
      match fields_and_data_to_dict fields data with
      | .raised e => (s, t, .raised e)
      | .ok pairs =>
        let d := env.statsKeyOrder.filterMap
          (fun k => (pyDictGet pairs k).map (fun v => (k, v)))
        (s, t, .ok (some d))

/-- PostgreSQLDb.retrieve_database_stats: iterates the outer _database_stats
dict, whose single key is pg_stat_database, and merges the non-None results
into one dict; a helper that returned None contributes nothing, so the
result is the empty dict in that case, never None. -/
def retrieve_database_stats (env : PgEnv) (s : PgState) (t : PgTrace) :
    PgState × PgTrace × PyResult (List (String × Int)) :=
  match retrieve_database_table_stats env s t with
  | (s2, t2, .raised e) => (s2, t2, .raised e)
  | (s2, t2, .ok none) => (s2, t2, .ok [])
  | (s2, t2, .ok (some d)) => (s2, t2, .ok d)

/-- The timestamp_ms helper nested in PostgresMonitor.gather_sample.
The argument is the datetime value as microseconds since the epoch; the
let bindings are the normalised days, seconds and microseconds components
of the Python timedelta between it and the epoch. -/
def timestamp_ms (micros : Int) : Int :=
  let days := micros / 86400000000
  let seconds := micros % 86400000000 / 1000000
  let microseconds := micros % 86400000000 % 1000000
  (microseconds + (seconds + days * 24 * 3600) * 1000000) / 1000

/-- The emission produced for one statistics column: the metric name comes
from the _database_stats entry, the dimension pair is attached for entries
of length three, and stats_reset is special-cased through timestamp_ms with
no extra fields. -/
def emitStat (k : String) (v : Int) : Option Emission :=
  match List.lookup k database_stats with
  | none => none
  | some (name, extra) =>
    if k = "stats_reset" then some ⟨name, timestamp_ms v, none⟩
    else some ⟨name, v, extra⟩

/-- The statistics emission loop of gather_sample: for each table key, in
the interpreter dict iteration order, emit the mapped metric when the key
is present in the retrieved stats. -/
def emitStats (keyOrder : List String) (dbstats : List (String × Int)) :
    List Emission :=
  keyOrder.filterMap (fun k => (pyDictGet dbstats k).bind (emitStat k))

/-- PostgresMonitor.gather_sample.  The try block protects only the initial
reconnect: any exception there is turned into one warning and a normal
return.  A connection failure swallowed by connect leads to the
is_connected warning return.  Afterwards the size metric is emitted if the
size query succeeded, the statistics are retrieved and emitted, and the
connection is closed; exceptions from the retrieval phase propagate. -/
def gather_sample (env : PgEnv) (s : PgState) :
    PgState × PgTrace × PyResult Unit :=
  match reconnect env s PgTrace.init with
  | (s1, t1, .raised e) =>
      (s1, { t1 with warnings := t1.warnings + 1 }, .ok ())
  | (s1, t1, .ok u) =>
    if is_connected s1 = false then
      (s1, { t1 with warnings := t1.warnings + 1 }, .ok ())
    else
      match retrieve_database_size env s1 t1 with
      | (s2, t2, .raised e) => (s2, t2, .raised e)
      | (s2, t2, .ok dbsize) =>
        let t3 := match dbsize with
          | some v =>
              { t2 with emissions :=
                  t2.emissions ++ [⟨"postgres.database.size", v, none⟩] }
          | none => t2
        match retrieve_database_stats env s2 t3 with
        | (s4, t4, .raised e) => (s4, t4, .raised e)
        | (s4, t4, .ok dbstats) =>
          (close s4,
           { t4 with emissions :=
               t4.emissions ++ emitStats env.statsKeyOrder dbstats },
           .ok ())

end Postgres

namespace WinProc

/-- The exact runtime type of a Python object, as tested by
type(process) is psutil.Process in the generated gather_metric closures.
A fake or a subclass carries a different type object. -/
inductive PyType where
  | psutilProcess
  | otherType (name : String)
deriving DecidableEq

/-- The process-information values behind one resolved process object: the
members of the structures returned by the psutil.Process methods the metric
table uses.  ty is the runtime type of the object. -/
structure Process where
  ty : PyType
  cpu_user : Int
  cpu_system : Int
  create_time : Int
  num_threads : Int
  wset : Int
  peak_wset : Int
  paged_pool : Int
  peak_paged_pool : Int
  nonpaged_pool : Int
  peak_nonpaged_pool : Int
  pagefile : Int
  peak_pagefile : Int
  rss : Int
  vms : Int
  read_count : Int
  write_count : Int
  read_bytes : Int
  write_bytes : Int
deriving DecidableEq

/-- The psutil.Process methods the metric table calls. -/
inductive PMethod where
  | cpu_times
  | create_time
  | num_threads
  | memory_info_ex
  | memory_info
  | io_counters
deriving DecidableEq

/-- The member names the metric table reads from method results. -/
inductive PField where
  | user
  | system
  | wset
  | peak_wset
  | paged_pool
  | peak_paged_pool
  | nonpaged_pool
  | peak_nonpaged_pool
  | pagefile
  | peak_pagefile
  | rss
  | vms
  | read_count
  | write_count
  | read_bytes
  | write_bytes
deriving DecidableEq

/-- A method result: a plain number, or a named tuple exposing a partial
mapping from member names to numbers. -/
inductive MethodValue where
  | scalar (v : Int)
  | record (fields : PField → Option Int)

/-- The value a live psutil.Process returns from each method, per the psutil
interface: cpu_times has user and system members; memory_info_ex has the
eight extended Windows memory members; memory_info has rss and vms;
io_counters has the four counter members; create_time and num_threads are
scalars. -/
def callMethod (p : Process) : PMethod → MethodValue
  | .cpu_times => .record (fun f => match f with
      | .user => some p.cpu_user
      | .system => some p.cpu_system
      | _ => none)
  | .create_time => .scalar p.create_time
  | .num_threads => .scalar p.num_threads
  | .memory_info_ex => .record (fun f => match f with
      | .wset => some p.wset
      | .peak_wset => some p.peak_wset
      | .paged_pool => some p.paged_pool
      | .peak_paged_pool => some p.peak_paged_pool
      | .nonpaged_pool => some p.nonpaged_pool
      | .peak_nonpaged_pool => some p.peak_nonpaged_pool
      | .pagefile => some p.pagefile
      | .peak_pagefile => some p.peak_pagefile
      | _ => none)
  | .memory_info => .record (fun f => match f with
      | .rss => some p.rss
      | .vms => some p.vms
      | _ => none)
  | .io_counters => .record (fun f => match f with
      | .read_count => some p.read_count
      | .write_count => some p.write_count
      | .read_bytes => some p.read_bytes
      | .write_bytes => some p.write_bytes
      | _ => none)

/-- attrgetter applied to a method result: reading a member that the result
does not expose raises an AttributeError (unreachable for the entries of the
metric table). -/
def attrget (mv : MethodValue) (f : PField) : PyResult Int :=
  match mv with
  | .scalar _ => .raised .attrError
  | .record g =>
    match g f with
    | some v => .ok v
    | none => .raised .attrError

/-- uptime_from_start_time: time.time() minus the process start time.  The
current clock value is supplied by the environment. -/
def uptime_from_start_time (now : Int) (start_time : Int) : Int :=
  now - start_time

/-- How ProcessMonitor resolves its target in _select_target_process, as
seen from gather_sample: a process object was found, no process matched
(target set to None), or the resolution itself raised NoSuchProcess (a pid
configuration naming a dead process). -/
inductive SelectResult where
  | found (p : Process)
  | target_none
  | raisesNSP

/-- Environment of one windows gather cycle: the outcome of target
resolution, whether the target is still alive at the time of the metric
call with the given loop index, the clock value used by the uptime
transform, and the instance id self.__id injected as the app dimension. -/
structure WinEnv where
  select : SelectResult
  alive : Nat → Bool
  now : Int
  id : String

/-- The METRIC_CONFIG dict of one metric table entry.  The description
string, unused by any claim, is omitted; entries whose source dict has no
cumulative or unit key carry the define_metric defaults false and none. -/
structure MetricConfig where
  metric_name : String
  category : String
  unit : Option String
  cumulative : Bool
  extra_fields : List (String × String)
deriving DecidableEq

/-- One METRIC named tuple of the metric table: the config dict and the
data of the gather_metric closure produced by _gather_metric (its method
name, optional member name, and whether the uptime transform is attached;
the closure itself is gather_metric below applied to these). -/
structure METRIC where
  config : MetricConfig
  method : PMethod
  attr : Option PField
  transform : Bool
deriving DecidableEq

/-- The gather_metric closure produced by _gather_metric: assert that the
argument is exactly a psutil.Process, call the method (which raises
NoSuchProcess when the process has exited), read the optional member, and
apply the optional transform. -/
def gather_metric (method : PMethod) (attr : Option PField) (transform : Bool)
    (env : WinEnv) (aliveNow : Bool) (p : Process) : PyResult Int :=
  if p.ty ≠ PyType.psutilProcess then .raised .assertionError
  else if aliveNow = false then .raised .noSuchProcess
  else
    let mv := callMethod p method
    match attr with
    | some f =>
      match attrget mv f with
      | .ok v => .ok (if transform then uptime_from_start_time env.now v else v)
      | .raised e => .raised e
    | none =>
      match mv with
      | .scalar v => .ok (if transform then uptime_from_start_time env.now v else v)
      | .record _ => .raised .attrError

/-- The _PROCESS_CPU_METRICS list. -/
def PROCESS_CPU_METRICS : List METRIC :=
  [ ⟨⟨"winproc.cpu", "CPU", some "secs", true, [("type", "user")]⟩,
      .cpu_times, some .user, false⟩,
    ⟨⟨"winproc.cpu", "CPU", some "secs", true, [("type", "system")]⟩,
      .cpu_times, some .system, false⟩ ]

/-- The _PROCESS_ATTRIBUTE_METRICS list. -/
def PROCESS_ATTRIBUTE_METRICS : List METRIC :=
  [ ⟨⟨"winproc.uptime", "General", some "seconds", true, []⟩,
      .create_time, none, true⟩,
    ⟨⟨"winproc.threads", "General", none, false, []⟩,
      .num_threads, none, false⟩ ]

/-- The _PROCESS_MEMORY_METRICS list. -/
def PROCESS_MEMORY_METRICS : List METRIC :=
  [ ⟨⟨"winproc.mem.bytes", "Memory", some "bytes", false, [("type", "working_set")]⟩,
      .memory_info_ex, some .wset, false⟩,
    ⟨⟨"winproc.mem.bytes", "Memory", some "bytes", false, [("type", "peak_working_set")]⟩,
      .memory_info_ex, some .peak_wset, false⟩,
    ⟨⟨"winproc.mem.bytes", "Memory", some "bytes", false, [("type", "paged_pool")]⟩,
      .memory_info_ex, some .paged_pool, false⟩,
    ⟨⟨"winproc.mem.bytes", "Memory", some "bytes", false, [("type", "peak_paged_pool")]⟩,
      .memory_info_ex, some .peak_paged_pool, false⟩,
    ⟨⟨"winproc.mem.bytes", "Memory", some "bytes", false, [("type", "nonpaged_pool")]⟩,
      .memory_info_ex, some .nonpaged_pool, false⟩,
    ⟨⟨"winproc.mem.bytes", "Memory", some "bytes", false, [("type", "peak_nonpaged_pool")]⟩,
      .memory_info_ex, some .peak_nonpaged_pool, false⟩,
    ⟨⟨"winproc.mem.bytes", "Memory", some "bytes", false, [("type", "pagefile")]⟩,
      .memory_info_ex, some .pagefile, false⟩,
    ⟨⟨"winproc.mem.bytes", "Memory", some "bytes", false, [("type", "peak_pagefile")]⟩,
      .memory_info_ex, some .peak_pagefile, false⟩,
    ⟨⟨"winproc.mem.bytes", "Memory", some "bytes", false, [("type", "rss")]⟩,
      .memory_info, some .rss, false⟩,
    ⟨⟨"winproc.mem.bytes", "Memory", some "bytes", false, [("type", "vms")]⟩,
      .memory_info, some .vms, false⟩ ]

/-- The _PROCESS_DISK_IO_METRICS list (source name has a leading
underscore). -/
def PROCESS_DISK_METRICS : List METRIC :=
  [ ⟨⟨"winproc.disk.ops", "Disk", some "requests", true, [("type", "read")]⟩,
      .io_counters, some .read_count, false⟩,
    ⟨⟨"winproc.disk.ops", "Disk", some "requests", true, [("type", "write")]⟩,
      .io_counters, some .write_count, false⟩,
    ⟨⟨"winproc.disk.bytes", "Disk", some "bytes", true, [("type", "read")]⟩,
      .io_counters, some .read_bytes, false⟩,
    ⟨⟨"winproc.disk.bytes", "Disk", some "bytes", true, [("type", "write")]⟩,
      .io_counters, some .write_bytes, false⟩ ]

/-- The module-level METRICS list: the concatenation of the four sections,
in source order. -/
def METRICS : List METRIC :=
  PROCESS_CPU_METRICS ++ PROCESS_ATTRIBUTE_METRICS
    ++ PROCESS_MEMORY_METRICS ++ PROCESS_DISK_METRICS

/-- Assignment to a key of a Python dict modelled as an association list:
an existing key keeps its position and gets the new value, a new key is
appended. -/
def dictSet (d : List (String × String)) (k v : String) : List (String × String) :=
  if (List.lookup k d).isSome then
    d.map (fun kv => if kv.1 = k then (k, v) else kv)
  else d ++ [(k, v)]

/-- One emit_value call of the process monitor. -/
structure WEmission where
  metric_name : String
  value : Int
  extra_fields : List (String × String)
deriving DecidableEq

/-- The mutable state the claims are about: the cached process reference
self.__process, and the module-level METRICS list, which gather_sample
mutates through the extra_fields dicts its entries share with it. -/
structure ProcessMonitor where
  process : Option Process
  table : List METRIC
deriving DecidableEq

/-- The metric loop of ProcessMonitor.gather_sample, from table position
idx on.  For each entry: evaluate the dispatch closure against the process
(an exception propagates, leaving the remaining entries untouched), then
set the app key inside the entry's own extra_fields dict (mutating the
shared table entry), then emit.  The loop's `if not self.__process: break`
guard never fires here because the reference is only cleared by the
NoSuchProcess handler outside the loop. -/
def runMetrics (env : WinEnv) (p : Process) :
    Nat → List METRIC → List METRIC × List WEmission × PyResult Unit
  | _, [] => ([], [], .ok ())
  | idx, m :: rest =>
    match gather_metric m.method m.attr m.transform env (env.alive idx) p with
    | .raised e => (m :: rest, [], .raised e)
    | .ok v =>
      let ef := dictSet m.config.extra_fields "app" env.id
      let m2 : METRIC := { m with config := { m.config with extra_fields := ef } }
      let r := runMetrics env p (idx + 1) rest
      (m2 :: r.1, ⟨m.config.metric_name, v, ef⟩ :: r.2.1, r.2.2)

/-- ProcessMonitor.gather_sample.  The try block wraps target resolution
and the whole metric loop; a NoSuchProcess raised anywhere inside clears
the cached process reference and returns normally; any other exception
propagates with the reference left as assigned. -/
def gather_sample (env : WinEnv) (s : ProcessMonitor) :
    ProcessMonitor × List WEmission × PyResult Unit :=
  match env.select with
  | .raisesNSP => ({ s with process := none }, [], .ok ())
  | .target_none => ({ s with process := none }, [], .ok ())
  | .found p =>
    match runMetrics env p 0 s.table with
    | (table2, ems, .ok _) => (⟨some p, table2⟩, ems, .ok ())
    | (table2, ems, .raised .noSuchProcess) => (⟨none, table2⟩, ems, .ok ())
    | (table2, ems, .raised e) => (⟨some p, table2⟩, ems, .raised e)

end WinProc

namespace Postgres

/-- The initial wrapper state: no connection, no cursor, no connect calls
made yet. -/
def pgInit : PgState := ⟨none, none, 0⟩

/-- A cycle whose size query fails with a non-2006 OperationalError while
everything else succeeds. -/
def C1env : PgEnv :=
  ⟨fun _ => .success, .opError 1045, .ok ([], none), statKeys⟩

/-- A cycle whose statistics query succeeds but matches no row: fetchone
returns None. -/
def C2env : PgEnv :=
  ⟨fun _ => .success, .ok 42, .ok (["numbackends"], none), statKeys⟩

/-- A cycle whose size query hits errcode 2006 while connecting and the
statistics query succeed. -/
def C3env : PgEnv :=
  ⟨fun _ => .success, .opError 2006, .ok (["numbackends"], some [7]), statKeys⟩

/-- A fully successful cycle whose statistics row carries only stats_reset,
with the raw timestamp t (microseconds since the epoch) and database size
v. -/
def C6env (t v : Int) : PgEnv :=
  ⟨fun _ => .success, .ok v, .ok (["stats_reset"], some [t]), statKeys⟩

/-- A cycle whose connect attempt fails with a pg8000.Error. -/
def C7env : PgEnv :=
  ⟨fun _ => .pgError, .ok 0, .ok ([], none), statKeys⟩

/-- A fully successful cycle whose statistics row carries every declared
column (values 1 to 16 in declaration order) and whose dict key iteration
order is the reverse of the declaration order, a permutation CPython is
free to use. -/
def C8env : PgEnv :=
  ⟨fun _ => .success, .ok 1,
   .ok (statKeys, some [1, 2, 3, 4, 5, 6, 7, 8, 9, 10, 11, 12, 13, 14, 15, 16]),
   statKeys.reverse⟩

/-- A fully successful cycle with one statistics column, used as a witness
environment. -/
def CWenv : PgEnv :=
  ⟨fun _ => .success, .ok 42, .ok (["numbackends"], some [7]), statKeys⟩

/-- The identity of one emission for ordering purposes: metric name plus
dimension pair. -/
def emissionKey (e : Emission) : String × Option (String × String) :=
  (e.metric_name, e.extra_fields)

/-- The seventeen metric emissions declarable by the postgres monitor, as
(metric name, dimension pair), in the textual order of the define_metric
calls of the source module.  The size metric is declared last. -/
def declaredEmissionOrder : List (String × Option (String × String)) :=
  [ ("postgres.database.connections", none),
    ("postgres.database.transactions", some ("result", "committed")),
    ("postgres.database.transactions", some ("result", "rolledback")),
    ("postgres.database.disk_blocks", some ("type", "read")),
    ("postgres.database.disk_blocks", some ("type", "hit")),
    ("postgres.database.query_rows", some ("op", "returned")),
    ("postgres.database.query_rows", some ("op", "fetched")),
    ("postgres.database.query_rows", some ("op", "inserted")),
    ("postgres.database.query_rows", some ("op", "updated")),
    ("postgres.database.query_rows", some ("op", "deleted")),
    ("postgres.database.temp_files", none),
    ("postgres.database.temp_bytes", none),
    ("postgres.database.deadlocks", none),
    ("postgres.database.blocks_op_time", some ("op", "read")),
    ("postgres.database.blocks_op_time", some ("op", "write")),
    ("postgres.database.stats_reset", none),
    ("postgres.database.size", none) ]

/-- Position of a key in a list, counting from zero. -/
def declIdx {α : Type} [DecidableEq α] : List α → α → Option Nat
  | [], _ => none
  | e :: rest, key =>
    if e = key then some 0 else (declIdx rest key).map (· + 1)

end Postgres

/-- Whether a list of naturals is nondecreasing. -/
def nondecr : List Nat → Bool
  | [] => true
  | [_] => true
  | a :: b :: t => decide (a ≤ b) && nondecr (b :: t)

namespace WinProc

/-- The monitor state before the first cycle: no cached process, the
pristine METRICS table. -/
def winInit : ProcessMonitor := ⟨none, METRICS⟩

/-- A process object of the exact psutil.Process type exposing the values
1 to 18 in the member order of the Process structure. -/
def procAll : Process :=
  ⟨.psutilProcess, 1, 2, 3, 4, 5, 6, 7, 8, 9, 10, 11, 12, 13, 14, 15, 16, 17, 18⟩

/-- A process object that is not a psutil.Process. -/
def procFake : Process :=
  ⟨.otherType "FakeProcess", 1, 2, 3, 4, 5, 6, 7, 8, 9, 10, 11, 12, 13, 14, 15, 16, 17, 18⟩

/-- A cycle that resolves procAll, with the process alive throughout,
clock value 100 and instance id "test". -/
def envAll : WinEnv := ⟨.found procAll, fun _ => true, 100, "test"⟩

/-- A cycle that resolves procAll but where the process disappears after
the second metric call. -/
def envDie : WinEnv := ⟨.found procAll, fun j => decide (j < 2), 100, "test"⟩

/-- A cycle that resolves the non-psutil object procFake. -/
def envFake : WinEnv := ⟨.found procFake, fun _ => true, 100, "test"⟩

/-- The in-place app insertion gather_sample performs on the extra_fields
dict of a table entry it emits. -/
def setApp (idv : String) (m : METRIC) : METRIC :=
  { m with config :=
      { m.config with extra_fields := dictSet m.config.extra_fields "app" idv } }

end WinProc

namespace Postgres

theorem lookup_mem {β : Type} (k : String) (v : β) :
    ∀ (l : List (String × β)), List.lookup k l = some v → (k, v) ∈ l := by
  intro l
  induction l with
  | nil => intro h; simp [List.lookup] at h
  | cons a t ih =>
    intro h
    rw [List.lookup] at h
    rcases a with ⟨k2, v2⟩
    by_cases hk : k = k2
    · subst hk
      simp at h
      subst h
      exact List.mem_cons_self _ _
    · have hb : (k == k2) = false := beq_false_of_ne hk
      rw [hb] at h
      exact List.mem_cons_of_mem _ (ih h)

theorem reconnect_success (env : PgEnv) (s : PgState) (t : PgTrace)
    (hc : env.connectOutcome s.calls = .success) :
    reconnect env s t =
      ({ s with db := some (), cursor := some (), calls := s.calls + 1 },
       { t with reconnects := t.reconnects + 1 }, .ok ()) := by
  simp [reconnect, connect, close, hc]

theorem reconnect_eq_closed_or_open (env : PgEnv) (s : PgState) (t : PgTrace)
    (s1 : PgState) (t1 : PgTrace) (r : PyResult Unit)
    (heq : reconnect env s t = (s1, t1, r)) :
    (s1.db = none ∧ s1.cursor = none) ∨ (s1.db = some () ∧ s1.cursor = some ()) := by
  unfold reconnect connect at heq
  rcases hco : env.connectOutcome (close s).calls <;>
    rw [hco] at heq <;> simp only [Prod.mk.injEq] at heq <;>
    obtain ⟨h1, -, -⟩ := heq <;> subst h1
  · right; exact ⟨rfl, rfl⟩
  · left; exact ⟨rfl, rfl⟩
  · left; exact ⟨rfl, rfl⟩

theorem reconnect_eq_raised_closed (env : PgEnv) (s : PgState) (t : PgTrace)
    (s1 : PgState) (t1 : PgTrace) (e : PyExn)
    (heq : reconnect env s t = (s1, t1, .raised e)) :
    s1.db = none ∧ s1.cursor = none := by
  unfold reconnect connect at heq
  rcases hco : env.connectOutcome (close s).calls <;> rw [hco] at heq <;> simp at heq
  obtain ⟨h1, -, -⟩ := heq
  subst h1
  exact ⟨rfl, rfl⟩

theorem reconnect_eq_trace (env : PgEnv) (s : PgState) (t : PgTrace)
    (s1 : PgState) (t1 : PgTrace) (r : PyResult Unit)
    (heq : reconnect env s t = (s1, t1, r)) :
    t1.reconnects = t.reconnects + 1 ∧ t1.emissions = t.emissions := by
  unfold reconnect connect at heq
  rcases hco : env.connectOutcome (close s).calls <;>
    rw [hco] at heq <;> simp only [Prod.mk.injEq] at heq <;>
    obtain ⟨-, h2, -⟩ := heq <;> subst h2 <;> exact ⟨rfl, rfl⟩

theorem emitStat_shape (k : String) (v : Int) (e : Emission)
    (h : emitStat k v = some e) :
    ∃ x ∈ database_stats, x.1 = k ∧ e.metric_name = x.2.1 := by
  unfold emitStat at h
  cases hl : List.lookup k database_stats with
  | none => rw [hl] at h; simp at h
  | some p =>
    rw [hl] at h
    rcases p with ⟨name, extra⟩
    refine ⟨(k, name, extra), lookup_mem k (name, extra) database_stats hl, rfl, ?_⟩
    by_cases hk : k = "stats_reset" <;> simp [hk] at h <;> simp [← h]

theorem stats_names_ne_size :
    ∀ x ∈ database_stats, x.2.1 ≠ "postgres.database.size" := by decide

theorem emitStats_no_size (ks : List String) (d : List (String × Int))
    (e : Emission) (he : e ∈ emitStats ks d) :
    e.metric_name ≠ "postgres.database.size" := by
  unfold emitStats at he
  rcases List.mem_filterMap.mp he with ⟨k, _, hk⟩
  rcases Option.bind_eq_some.mp hk with ⟨v, _, hv⟩
  rcases emitStat_shape k v e hv with ⟨x, hx, _, hname⟩
  rw [hname]
  exact stats_names_ne_size x hx

theorem emitStats_nil (ks : List String) : emitStats ks [] = [] := by
  rw [emitStats, List.filterMap_eq_nil_iff]
  intro k _
  simp [pyDictGet, List.lookup]

theorem size_eq_ok_some (env : PgEnv) (s : PgState) (t : PgTrace)
    (s2 : PgState) (t2 : PgTrace) (v : Int)
    (heq : retrieve_database_size env s t = (s2, t2, .ok (some v))) :
    env.sizeQuery = .ok v ∧ t2 = t := by
  unfold retrieve_database_size at heq
  cases hcur : s.cursor with
  | none => rw [hcur] at heq; simp at heq
  | some u =>
    rw [hcur] at heq
    dsimp only at heq
    cases hq : env.sizeQuery with
    | ok w =>
      rw [hq] at heq
      simp at heq
      obtain ⟨-, h2, h3⟩ := heq
      subst h2
      subst h3
      exact ⟨rfl, rfl⟩
    | exn => rw [hq] at heq; simp at heq
    | opError c =>
      rw [hq] at heq
      dsimp only at heq
      by_cases hc : c ≠ 2006
      · rw [if_pos hc] at heq; simp at heq
      · rw [if_neg hc] at heq
        rcases hr : reconnect env s t with ⟨sa, ta, ra⟩
        rw [hr] at heq
        cases ra <;> simp at heq

theorem size_eq_emissions (env : PgEnv) (s : PgState) (t : PgTrace)
    (s2 : PgState) (t2 : PgTrace) (r : PyResult (Option Int))
    (heq : retrieve_database_size env s t = (s2, t2, r)) :
    t2.emissions = t.emissions := by
  unfold retrieve_database_size at heq
  cases hcur : s.cursor with
  | none =>
    rw [hcur] at heq
    simp only [Prod.mk.injEq] at heq
    obtain ⟨-, h2, -⟩ := heq
    subst h2
    rfl
  | some u =>
    rw [hcur] at heq
    dsimp only at heq
    cases hq : env.sizeQuery with
    | ok w =>
      rw [hq] at heq
      simp only [Prod.mk.injEq] at heq
      obtain ⟨-, h2, -⟩ := heq
      subst h2
      rfl
    | exn =>
      rw [hq] at heq
      simp only [Prod.mk.injEq] at heq
      obtain ⟨-, h2, -⟩ := heq
      subst h2
      rfl
    | opError c =>
      rw [hq] at heq
      dsimp only at heq
      by_cases hc : c ≠ 2006
      · rw [if_pos hc] at heq
        simp only [Prod.mk.injEq] at heq
        obtain ⟨-, h2, -⟩ := heq
        subst h2
        rfl
      · rw [if_neg hc] at heq
        rcases hr : reconnect env s t with ⟨sa, ta, ra⟩
        have hta : ta.emissions = t.emissions := (reconnect_eq_trace env s t sa ta ra hr).2
        rw [hr] at heq
        cases ra <;> simp only [Prod.mk.injEq] at heq <;>
          obtain ⟨-, h2, -⟩ := heq <;> subst h2 <;> exact hta

theorem table_stats_eq_emissions (env : PgEnv) (s : PgState) (t : PgTrace)
    (s2 : PgState) (t2 : PgTrace) (r : PyResult (Option (List (String × Int))))
    (heq : retrieve_database_table_stats env s t = (s2, t2, r)) :
    t2.emissions = t.emissions := by
  unfold retrieve_database_table_stats at heq
  cases hcur : s.cursor with
  | none =>
    rw [hcur] at heq
    simp only [Prod.mk.injEq] at heq
    obtain ⟨-, h2, -⟩ := heq
    subst h2
    rfl
  | some u =>
    rw [hcur] at heq
    dsimp only at heq
    cases hq : env.statsQuery with
    | ok fd =>
      rcases fd with ⟨fields, data⟩
      rw [hq] at heq
      dsimp only at heq
      cases data with
      | none =>
        simp only [fields_and_data_to_dict, Prod.mk.injEq] at heq
        obtain ⟨-, h2, -⟩ := heq
        subst h2
        rfl
      | some row =>
        simp only [fields_and_data_to_dict, Prod.mk.injEq] at heq
        obtain ⟨-, h2, -⟩ := heq
        subst h2
        rfl
    | exn =>
      rw [hq] at heq
      simp only [Prod.mk.injEq] at heq
      obtain ⟨-, h2, -⟩ := heq
      subst h2
      rfl
    | opError c =>
      rw [hq] at heq
      dsimp only at heq
      by_cases hc : c ≠ 2006
      · rw [if_pos hc] at heq
        simp only [Prod.mk.injEq] at heq
        obtain ⟨-, h2, -⟩ := heq
        subst h2
        rfl
      · rw [if_neg hc] at heq
        rcases hr : reconnect env s t with ⟨sa, ta, ra⟩
        have hta : ta.emissions = t.emissions := (reconnect_eq_trace env s t sa ta ra hr).2
        rw [hr] at heq
        cases ra <;> simp only [Prod.mk.injEq] at heq <;>
          obtain ⟨-, h2, -⟩ := heq <;> subst h2 <;> exact hta

theorem stats_eq_emissions (env : PgEnv) (s : PgState) (t : PgTrace)
    (s2 : PgState) (t2 : PgTrace) (r : PyResult (List (String × Int)))
    (heq : retrieve_database_stats env s t = (s2, t2, r)) :
    t2.emissions = t.emissions := by
  unfold retrieve_database_stats at heq
  rcases ht : retrieve_database_table_stats env s t with ⟨sa, ta, ra⟩
  have hta : ta.emissions = t.emissions :=
    table_stats_eq_emissions env s t sa ta ra ht
  rw [ht] at heq
  rcases ra with a | e
  · rcases a with _ | d <;> simp only [Prod.mk.injEq] at heq <;>
      obtain ⟨-, h2, -⟩ := heq <;> subst h2 <;> exact hta
  · simp only [Prod.mk.injEq] at heq
    obtain ⟨-, h2, -⟩ := heq
    subst h2
    exact hta

theorem table_stats_eq_ok_some (env : PgEnv) (s : PgState) (t : PgTrace)
    (sa : PgState) (ta : PgTrace) (dd : List (String × Int))
    (heq : retrieve_database_table_stats env s t = (sa, ta, .ok (some dd))) :
    ∃ fields row, env.statsQuery = .ok (fields, some row) := by
  unfold retrieve_database_table_stats at heq
  cases hcur : s.cursor with
  | none => rw [hcur] at heq; simp at heq
  | some u =>
    rw [hcur] at heq
    dsimp only at heq
    cases hq : env.statsQuery with
    | ok fd =>
      rcases fd with ⟨fields, data⟩
      rw [hq] at heq
      dsimp only at heq
      cases data with
      | none => simp [fields_and_data_to_dict] at heq
      | some row => exact ⟨fields, row, rfl⟩
    | exn => rw [hq] at heq; simp at heq
    | opError c =>
      rw [hq] at heq
      dsimp only at heq
      by_cases hc : c ≠ 2006
      · rw [if_pos hc] at heq; simp at heq
      · rw [if_neg hc] at heq
        rcases hr : reconnect env s t with ⟨sb, tb, rb⟩
        rw [hr] at heq
        cases rb <;> simp at heq

theorem stats_eq_ok (env : PgEnv) (s : PgState) (t : PgTrace)
    (s2 : PgState) (t2 : PgTrace) (d : List (String × Int))
    (heq : retrieve_database_stats env s t = (s2, t2, .ok d)) :
    d = [] ∨ ∃ fields row, env.statsQuery = .ok (fields, some row) := by
  unfold retrieve_database_stats at heq
  rcases ht : retrieve_database_table_stats env s t with ⟨sa, ta, ra⟩
  rw [ht] at heq
  rcases ra with a | e
  · rcases a with _ | dd
    · simp at heq
      left
      exact heq.2.2
    · right
      exact table_stats_eq_ok_some env s t sa ta dd ht
  · simp at heq

/-- C1 amended: whenever gather_sample returns normally, the connection and
cursor fields of the database wrapper are both None.  (The claim as stated,
covering raising calls as well, is refuted by C1_cex.) -/
theorem C1_theorem (env : PgEnv) (s : PgState)
    (h : (gather_sample env s).2.2 = .ok ()) :
    (gather_sample env s).1.db = none ∧ (gather_sample env s).1.cursor = none := by
  rcases hg : gather_sample env s with ⟨sf, tf, rf⟩
  rw [hg] at h
  dsimp only at h
  subst h
  dsimp only
  unfold gather_sample at hg
  rcases hr : reconnect env s PgTrace.init with ⟨s1, t1, r1⟩
  rw [hr] at hg
  cases r1 with
  | raised e1 =>
    dsimp only at hg
    simp only [Prod.mk.injEq] at hg
    obtain ⟨h1, -, -⟩ := hg
    subst h1
    exact reconnect_eq_raised_closed env s PgTrace.init _ _ _ hr
  | ok u =>
    dsimp only at hg
    by_cases hcon : is_connected s1 = false
    · rw [if_pos hcon] at hg
      simp only [Prod.mk.injEq] at hg
      obtain ⟨h1, -, -⟩ := hg
      subst h1
      rcases reconnect_eq_closed_or_open env s PgTrace.init _ _ _ hr with hcl | hop
      · exact hcl
      · exfalso
        rw [is_connected, hop.1] at hcon
        simp at hcon
    · rw [if_neg hcon] at hg
      rcases hs : retrieve_database_size env s1 t1 with ⟨s2, t2, r2⟩
      rw [hs] at hg
      cases r2 with
      | raised e2 => simp at hg
      | ok dbsize =>
        dsimp only at hg
        cases dbsize with
        | some v =>
          dsimp only at hg
          rcases hst : retrieve_database_stats env s2
              { t2 with emissions :=
                  t2.emissions ++ [⟨"postgres.database.size", v, none⟩] }
            with ⟨s4, t4, r4⟩
          rw [hst] at hg
          cases r4 with
          | raised e4 => simp at hg
          | ok dbstats =>
            dsimp only at hg
            simp only [Prod.mk.injEq] at hg
            obtain ⟨h1, -, -⟩ := hg
            subst h1
            exact ⟨rfl, rfl⟩
        | none =>
          dsimp only at hg
          rcases hst : retrieve_database_stats env s2 t2 with ⟨s4, t4, r4⟩
          rw [hst] at hg
          cases r4 with
          | raised e4 => simp at hg
          | ok dbstats =>
            dsimp only at hg
            simp only [Prod.mk.injEq] at hg
            obtain ⟨h1, -, -⟩ := hg
            subst h1
            exact ⟨rfl, rfl⟩

/-- C1 counterexample: with a working connection and a size query failing
with a non-2006 OperationalError, gather_sample raises and leaves the
connection and cursor set, so the claim that the connection is closed
whenever gather_sample returns or raises is false. -/
theorem C1_cex :
    (gather_sample C1env pgInit).2.2 = .raised .dbError ∧
    ¬ ((gather_sample C1env pgInit).1.db = none ∧
       (gather_sample C1env pgInit).1.cursor = none) := by decide

/-- C1 witness: a fully successful cycle returns normally and indeed leaves
both handles None. -/
theorem C1_witness :
    (gather_sample CWenv pgInit).1.db = none ∧
    (gather_sample CWenv pgInit).1.cursor = none :=
  C1_theorem CWenv pgInit (by decide)

/-- C7: when establishing the connection fails during reconnect, whether
the driver error is swallowed by connect or re-raised, gather_sample
returns normally with no emissions and exactly one warning log line (and
one error log line from connect, one reconnect, and both handles None). -/
theorem C7_theorem (env : PgEnv) (s : PgState)
    (h : env.connectOutcome s.calls ≠ .success) :
    gather_sample env s = (⟨none, none, s.calls + 1⟩, ⟨[], 1, 1, 1⟩, .ok ()) := by
  unfold gather_sample reconnect connect
  rcases hco : env.connectOutcome (close s).calls with h1 | h1 | h1
  · exact absurd hco h
  · dsimp only
    simp [is_connected, close, PgTrace.init]
  · dsimp only
    simp [close, PgTrace.init]

/-- C7 witness: the pg8000.Error connect failure at the concrete
environment. -/
theorem C7_witness :
    gather_sample C7env pgInit = (⟨none, none, 1⟩, ⟨[], 1, 1, 1⟩, .ok ()) :=
  C7_theorem C7env pgInit (by decide)

theorem size_2006_reconnects (env : PgEnv) (s : PgState) (t : PgTrace)
    (s2 : PgState) (t2 : PgTrace) (r : PyResult (Option Int))
    (hcur : s.cursor = some ()) (hsz : env.sizeQuery = .opError 2006)
    (heq : retrieve_database_size env s t = (s2, t2, r)) :
    t2.reconnects = t.reconnects + 1 := by
  unfold retrieve_database_size at heq
  rw [hcur] at heq
  dsimp only at heq
  rw [hsz] at heq
  dsimp only at heq
  rw [if_neg (by decide : ¬ ((2006 : Int) ≠ 2006))] at heq
  rcases hrc : reconnect env s t with ⟨sa, ta, ra⟩
  have hta := (reconnect_eq_trace env s t sa ta ra hrc).1
  rw [hrc] at heq
  cases ra <;> simp only [Prod.mk.injEq] at heq <;>
    obtain ⟨-, h2, -⟩ := heq <;> subst h2 <;> exact hta

theorem table_stats_reconnects_mono (env : PgEnv) (s : PgState) (t : PgTrace)
    (s2 : PgState) (t2 : PgTrace) (r : PyResult (Option (List (String × Int))))
    (heq : retrieve_database_table_stats env s t = (s2, t2, r)) :
    t.reconnects ≤ t2.reconnects := by
  unfold retrieve_database_table_stats at heq
  cases hcur : s.cursor with
  | none =>
    rw [hcur] at heq
    simp only [Prod.mk.injEq] at heq
    obtain ⟨-, h2, -⟩ := heq
    subst h2
    exact Nat.le_refl _
  | some u =>
    rw [hcur] at heq
    dsimp only at heq
    cases hq : env.statsQuery with
    | ok fd =>
      rcases fd with ⟨fields, data⟩
      rw [hq] at heq
      dsimp only at heq
      cases data with
      | none =>
        simp only [fields_and_data_to_dict, Prod.mk.injEq] at heq
        obtain ⟨-, h2, -⟩ := heq
        subst h2
        exact Nat.le_refl _
      | some row =>
        simp only [fields_and_data_to_dict, Prod.mk.injEq] at heq
        obtain ⟨-, h2, -⟩ := heq
        subst h2
        exact Nat.le_refl _
    | exn =>
      rw [hq] at heq
      simp only [Prod.mk.injEq] at heq
      obtain ⟨-, h2, -⟩ := heq
      subst h2
      exact Nat.le_refl _
    | opError c =>
      rw [hq] at heq
      dsimp only at heq
      by_cases hc : c ≠ 2006
      · rw [if_pos hc] at heq
        simp only [Prod.mk.injEq] at heq
        obtain ⟨-, h2, -⟩ := heq
        subst h2
        exact Nat.le_refl _
      · rw [if_neg hc] at heq
        rcases hr : reconnect env s t with ⟨sa, ta, ra⟩
        have hta := (reconnect_eq_trace env s t sa ta ra hr).1
        rw [hr] at heq
        cases ra <;> simp only [Prod.mk.injEq] at heq <;>
          obtain ⟨-, h2, -⟩ := heq <;> subst h2 <;> omega

theorem stats_reconnects_mono (env : PgEnv) (s : PgState) (t : PgTrace)
    (s2 : PgState) (t2 : PgTrace) (r : PyResult (List (String × Int)))
    (heq : retrieve_database_stats env s t = (s2, t2, r)) :
    t.reconnects ≤ t2.reconnects := by
  unfold retrieve_database_stats at heq
  rcases ht : retrieve_database_table_stats env s t with ⟨sa, ta, ra⟩
  have hta := table_stats_reconnects_mono env s t sa ta ra ht
  rw [ht] at heq
  rcases ra with a | e
  · rcases a with _ | d <;> simp only [Prod.mk.injEq] at heq <;>
      obtain ⟨-, h2, -⟩ := heq <;> subst h2 <;> exact hta
  · simp only [Prod.mk.injEq] at heq
    obtain ⟨-, h2, -⟩ := heq
    subst h2
    exact hta

theorem gather_emissions_from (env : PgEnv) (s : PgState) (e : Emission)
    (he : e ∈ (gather_sample env s).2.1.emissions) :
    (e.metric_name = "postgres.database.size" ∧ ∃ w, env.sizeQuery = .ok w) ∨
    (e.metric_name ≠ "postgres.database.size" ∧
      ∃ fields row, env.statsQuery = .ok (fields, some row)) := by
  rcases hg : gather_sample env s with ⟨sf, tf, rf⟩
  rw [hg] at he
  dsimp only at he
  unfold gather_sample at hg
  rcases hr : reconnect env s PgTrace.init with ⟨s1, t1, r1⟩
  have ht1 : t1.emissions = [] := (reconnect_eq_trace env s PgTrace.init _ _ _ hr).2
  rw [hr] at hg
  cases r1 with
  | raised e1 =>
    dsimp only at hg
    simp only [Prod.mk.injEq] at hg
    obtain ⟨-, h2, -⟩ := hg
    subst h2
    dsimp only at he
    rw [ht1] at he
    exact absurd he (List.not_mem_nil e)
  | ok u =>
    dsimp only at hg
    by_cases hcon : is_connected s1 = false
    · rw [if_pos hcon] at hg
      simp only [Prod.mk.injEq] at hg
      obtain ⟨-, h2, -⟩ := hg
      subst h2
      dsimp only at he
      rw [ht1] at he
      exact absurd he (List.not_mem_nil e)
    · rw [if_neg hcon] at hg
      rcases hs : retrieve_database_size env s1 t1 with ⟨s2, t2, r2⟩
      have ht2 : t2.emissions = [] := (size_eq_emissions env s1 t1 _ _ _ hs).trans ht1
      rw [hs] at hg
      cases r2 with
      | raised e2 =>
        dsimp only at hg
        simp only [Prod.mk.injEq] at hg
        obtain ⟨-, h2, -⟩ := hg
        subst h2
        rw [ht2] at he
        exact absurd he (List.not_mem_nil e)
      | ok dbsize =>
        dsimp only at hg
        cases dbsize with
        | some v =>
          dsimp only at hg
          have hsz : env.sizeQuery = .ok v := (size_eq_ok_some env s1 t1 _ _ _ hs).1
          rcases hst : retrieve_database_stats env s2
              { t2 with emissions :=
                  t2.emissions ++ [⟨"postgres.database.size", v, none⟩] }
            with ⟨s4, t4, r4⟩
          have ht4 : t4.emissions = [⟨"postgres.database.size", v, none⟩] := by
            rw [stats_eq_emissions env s2 _ _ _ _ hst]
            dsimp only
            rw [ht2]
            rfl
          rw [hst] at hg
          cases r4 with
          | raised e4 =>
            dsimp only at hg
            simp only [Prod.mk.injEq] at hg
            obtain ⟨-, h2, -⟩ := hg
            subst h2
            rw [ht4] at he
            have h3 := List.mem_singleton.mp he
            subst h3
            left
            exact ⟨rfl, v, hsz⟩
          | ok dbstats =>
            dsimp only at hg
            simp only [Prod.mk.injEq] at hg
            obtain ⟨-, h2, -⟩ := hg
            subst h2
            dsimp only at he
            rcases List.mem_append.mp he with h | h
            · rw [ht4] at h
              have h3 := List.mem_singleton.mp h
              subst h3
              left
              exact ⟨rfl, v, hsz⟩
            · refine Or.inr ⟨emitStats_no_size _ _ _ h, ?_⟩
              rcases stats_eq_ok env s2 _ _ _ _ hst with hnil | hok
              · rw [hnil, emitStats_nil] at h
                exact absurd h (List.not_mem_nil e)
              · exact hok
        | none =>
          dsimp only at hg
          rcases hst : retrieve_database_stats env s2 t2 with ⟨s4, t4, r4⟩
          have ht4 : t4.emissions = [] :=
            (stats_eq_emissions env s2 t2 _ _ _ hst).trans ht2
          rw [hst] at hg
          cases r4 with
          | raised e4 =>
            dsimp only at hg
            simp only [Prod.mk.injEq] at hg
            obtain ⟨-, h2, -⟩ := hg
            subst h2
            rw [ht4] at he
            exact absurd he (List.not_mem_nil e)
          | ok dbstats =>
            dsimp only at hg
            simp only [Prod.mk.injEq] at hg
            obtain ⟨-, h2, -⟩ := hg
            subst h2
            dsimp only at he
            rcases List.mem_append.mp he with h | h
            · rw [ht4] at h
              exact absurd h (List.not_mem_nil e)
            · refine Or.inr ⟨emitStats_no_size _ _ _ h, ?_⟩
              rcases stats_eq_ok env s2 _ _ _ _ hst with hnil | hok
              · rw [hnil, emitStats_nil] at h
                exact absurd h (List.not_mem_nil e)
              · exact hok

theorem gather_reconnects_ge (env : PgEnv) (s : PgState)
    (hc : env.connectOutcome s.calls = .success)
    (hsz : env.sizeQuery = .opError 2006) :
    2 ≤ (gather_sample env s).2.1.reconnects := by
  unfold gather_sample
  rw [reconnect_success env s PgTrace.init hc]
  dsimp only
  rw [if_neg (by simp [is_connected])]
  rcases hs : retrieve_database_size env
      { s with db := some (), cursor := some (), calls := s.calls + 1 }
      { PgTrace.init with reconnects := PgTrace.init.reconnects + 1 }
    with ⟨s2, t2, r2⟩
  have ht2 : t2.reconnects = 2 := by
    rw [size_2006_reconnects env _ _ s2 t2 r2 rfl hsz hs]
    decide
  cases r2 with
  | raised e2 => dsimp only; omega
  | ok dbsize =>
    dsimp only
    cases dbsize with
    | some v =>
      dsimp only
      rcases hst : retrieve_database_stats env s2
          { t2 with emissions :=
              t2.emissions ++ [⟨"postgres.database.size", v, none⟩] }
        with ⟨s4, t4, r4⟩
      have ht4 := stats_reconnects_mono env s2 _ _ _ _ hst
      dsimp only at ht4
      cases r4 with
      | raised e4 => dsimp only; omega
      | ok dbstats => dsimp only; omega
    | none =>
      dsimp only
      rcases hst : retrieve_database_stats env s2 t2 with ⟨s4, t4, r4⟩
      have ht4 := stats_reconnects_mono env s2 _ _ _ _ hst
      cases r4 with
      | raised e4 => dsimp only; omega
      | ok dbstats => dsimp only; omega

/-- C3 amended: when a query hits the 2006 condition the poller performs an
internal reconnect and the metrics of that query are skipped for the cycle,
but the cycle as a whole is not empty-handed: if the size query hits 2006
at least two reconnects happen and no size metric is emitted (statistics
metrics may still be); if the statistics query hits 2006 every emission of
the cycle is the size metric.  (The claim that the whole cycle returns with
no data is refuted by C3_cex.) -/
theorem C3_theorem (env : PgEnv) (s : PgState)
    (hc : env.connectOutcome s.calls = .success) :
    (env.sizeQuery = .opError 2006 →
      2 ≤ (gather_sample env s).2.1.reconnects ∧
      ∀ e ∈ (gather_sample env s).2.1.emissions,
        e.metric_name ≠ "postgres.database.size") ∧
    (env.statsQuery = .opError 2006 →
      ∀ e ∈ (gather_sample env s).2.1.emissions,
        e.metric_name = "postgres.database.size") := by
  constructor
  · intro hsz
    refine ⟨gather_reconnects_ge env s hc hsz, ?_⟩
    intro e he
    rcases gather_emissions_from env s e he with ⟨-, w, hw⟩ | ⟨hn, -⟩
    · rw [hsz] at hw
      cases hw
    · exact hn
  · intro hst e he
    rcases gather_emissions_from env s e he with ⟨hn, -⟩ | ⟨-, fields, row, hq⟩
    · exact hn
    · rw [hst] at hq
      cases hq

/-- C3 counterexample: the size query hits 2006, the internal reconnect
succeeds, and the statistics query of the same cycle still emits a metric,
so the cycle does not return with zero emissions. -/
theorem C3_cex :
    (gather_sample C3env pgInit).2.1.emissions =
      [⟨"postgres.database.connections", 7, none⟩] ∧
    (gather_sample C3env pgInit).2.1.reconnects = 2 ∧
    (gather_sample C3env pgInit).2.2 = .ok () := by decide

/-- C3 witness: the amended statement applied to the concrete 2006
environment. -/
theorem C3_witness :
    2 ≤ (gather_sample C3env pgInit).2.1.reconnects ∧
    ∀ e ∈ (gather_sample C3env pgInit).2.1.emissions,
      e.metric_name ≠ "postgres.database.size" :=
  (C3_theorem C3env pgInit (by decide)).1 (by decide)

/-- C2 amended: a row fetch that matches no row does not make the internal
retrieve helper return None; it raises a TypeError (the zip of the field
list with None), which propagates.  The helper returns None only on the
connection-gone-away path, errcode 2006. -/
theorem C2_theorem :
    (∀ fields, fields_and_data_to_dict fields none = .raised .typeError) ∧
    (∀ (env : PgEnv) (s : PgState) (t : PgTrace) (fields : List String),
      s.cursor = some () → env.statsQuery = .ok (fields, none) →
      (retrieve_database_table_stats env s t).2.2 = .raised .typeError) ∧
    (∀ (env : PgEnv) (s : PgState) (t : PgTrace),
      (retrieve_database_table_stats env s t).2.2 = .ok none →
      env.statsQuery = .opError 2006) := by
  refine ⟨fun fields => rfl, ?_, ?_⟩
  · intro env s t fields hcur hq
    unfold retrieve_database_table_stats
    rw [hcur]
    dsimp only
    rw [hq]
    rfl
  · intro env s t h
    unfold retrieve_database_table_stats at h
    cases hcur : s.cursor with
    | none => rw [hcur] at h; simp at h
    | some u =>
      rw [hcur] at h
      dsimp only at h
      cases hq : env.statsQuery with
      | ok fd =>
        rcases fd with ⟨fields, data⟩
        rw [hq] at h
        dsimp only at h
        cases data with
        | none => simp [fields_and_data_to_dict] at h
        | some row => simp [fields_and_data_to_dict] at h
      | exn => rw [hq] at h; simp at h
      | opError c =>
        rw [hq] at h
        dsimp only at h
        by_cases hc : c ≠ 2006
        · rw [if_pos hc] at h
          simp at h
        · simp only [ne_eq, not_not] at hc
          rw [hc]

/-- C2 counterexample: a successful statistics query that matches no row
makes the retrieve helper raise a TypeError which propagates out of
gather_sample, instead of returning None and silently skipping the
metrics. -/
theorem C2_cex :
    (retrieve_database_table_stats C2env ⟨some (), some (), 1⟩ PgTrace.init).2.2 =
      .raised .typeError ∧
    (gather_sample C2env pgInit).2.2 = .raised .typeError := by decide

/-- C2 witness: the amended statement applied to the concrete no-row
environment. -/
theorem C2_witness :
    (retrieve_database_table_stats C2env ⟨some (), some (), 1⟩ PgTrace.init).2.2 =
      .raised .typeError :=
  C2_theorem.2.1 C2env ⟨some (), some (), 1⟩ PgTrace.init ["numbackends"] rfl rfl

theorem timestamp_ms_eq (micros : Int) : timestamp_ms micros = micros / 1000 := by
  unfold timestamp_ms
  dsimp only
  omega

/-- C6 amended: a stats row carrying a stats_reset raw timestamp t
(microseconds since the epoch) makes the cycle emit
postgres.database.stats_reset with value t divided by 1000 rounded toward
negative infinity, the floor of the difference in milliseconds.  For
timestamps at or after the epoch this coincides with truncation, and
1970-01-01T00:00:01.500Z is emitted as 1500; for timestamps before the
epoch the value is floored, not truncated, refuted in C6_cex. -/
theorem C6_theorem (t v : Int) :
    (gather_sample (C6env t v) pgInit).2.1.emissions =
      [⟨"postgres.database.size", v, none⟩,
       ⟨"postgres.database.stats_reset", t / 1000, none⟩] ∧
    (gather_sample (C6env t v) pgInit).2.2 = .ok () := by
  constructor
  · have h : (gather_sample (C6env t v) pgInit).2.1.emissions =
        [⟨"postgres.database.size", v, none⟩,
         ⟨"postgres.database.stats_reset", timestamp_ms t, none⟩] := rfl
    rw [h, timestamp_ms_eq]
  · rfl

/-- C6 counterexample: the raw timestamp 1500500 microseconds before the
epoch is emitted as -1501 (the floor), while the difference truncated to
whole milliseconds is -1500, so the claim that the emitted value is the
truncated difference fails for pre-epoch timestamps. -/
theorem C6_cex :
    (gather_sample (C6env (-1500500) 9) pgInit).2.1.emissions =
      [⟨"postgres.database.size", 9, none⟩,
       ⟨"postgres.database.stats_reset", -1501, none⟩] ∧
    Int.tdiv (-1500500) 1000 = -1500 ∧
    ((-1501 : Int) ≠ -1500) := by decide

theorem gather_full_success (env : PgEnv) (s : PgState) (v : Int)
    (fields : List String) (row : List Int)
    (hc : env.connectOutcome s.calls = .success)
    (hsz : env.sizeQuery = .ok v)
    (hst : env.statsQuery = .ok (fields, some row)) :
    gather_sample env s =
      (⟨none, none, s.calls + 1⟩,
       ⟨⟨"postgres.database.size", v, none⟩ ::
          emitStats env.statsKeyOrder
            (env.statsKeyOrder.filterMap
              (fun k => (pyDictGet (fields.zip row) k).map (fun w => (k, w)))),
        0, 0, 1⟩,
       .ok ()) := by
  unfold gather_sample
  rw [reconnect_success env s PgTrace.init hc]
  dsimp only
  rw [if_neg (by simp [is_connected])]
  simp only [retrieve_database_size, retrieve_database_stats,
    retrieve_database_table_stats, fields_and_data_to_dict, hsz, hst]
  rfl


end Postgres

namespace WinProc

theorem attrget_cases (mv : MethodValue) (f : PField) :
    attrget mv f = .raised .attrError ∨ ∃ v, attrget mv f = .ok v := by
  cases mv with
  | scalar v => left; rfl
  | record g =>
    cases hg : g f with
    | none => left; simp [attrget, hg]
    | some v => right; exact ⟨v, by simp [attrget, hg]⟩

theorem gather_metric_alive_cases (m : PMethod) (a : Option PField) (tr : Bool)
    (env : WinEnv) (p : Process) (hty : p.ty = PyType.psutilProcess) :
    gather_metric m a tr env true p = .raised .attrError ∨
    ∃ v, gather_metric m a tr env true p = .ok v := by
  unfold gather_metric
  rw [hty]
  rw [if_neg (by simp)]
  rw [if_neg (by simp)]
  cases a with
  | some f =>
    rcases attrget_cases (callMethod p m) f with h | ⟨v, h⟩
    · left
      dsimp only
      rw [h]
    · right
      refine ⟨if tr then uptime_from_start_time env.now v else v, ?_⟩
      dsimp only
      rw [h]
  | none =>
    cases hmv : callMethod p m with
    | scalar v =>
      right
      refine ⟨if tr then uptime_from_start_time env.now v else v, ?_⟩
      dsimp only
    | record g =>
      left
      dsimp only

theorem gather_metric_dead (m : PMethod) (a : Option PField) (tr : Bool)
    (env : WinEnv) (p : Process) (hty : p.ty = PyType.psutilProcess) :
    gather_metric m a tr env false p = .raised .noSuchProcess := by
  unfold gather_metric
  rw [hty]
  simp

theorem runMetrics_table_rel (env : WinEnv) (p : Process) :
    ∀ (tl : List METRIC) (idx : Nat),
      List.Forall₂ (fun m m2 => m2 = m ∨ m2 = setApp env.id m) tl
        (runMetrics env p idx tl).1 := by
  intro tl
  induction tl with
  | nil => intro idx; exact List.Forall₂.nil
  | cons m rest ih =>
    intro idx
    unfold runMetrics
    cases hg : gather_metric m.method m.attr m.transform env (env.alive idx) p with
    | raised e =>
      dsimp only
      exact List.Forall₂.cons (Or.inl rfl)
        (List.forall₂_same.mpr (fun x _ => Or.inl rfl))
    | ok v =>
      dsimp only
      exact List.Forall₂.cons (Or.inr rfl) (ih (idx + 1))

theorem runMetrics_names (env : WinEnv) (p : Process) :
    ∀ (tl : List METRIC) (idx : Nat),
      ((runMetrics env p idx tl).2.1).map WEmission.metric_name =
      (tl.take ((runMetrics env p idx tl).2.1).length).map
        (fun m => m.config.metric_name) := by
  intro tl
  induction tl with
  | nil => intro idx; rfl
  | cons m rest ih =>
    intro idx
    unfold runMetrics
    cases hg : gather_metric m.method m.attr m.transform env (env.alive idx) p with
    | raised e => rfl
    | ok v =>
      dsimp only [List.map, List.length]
      exact congrArg _ (ih (idx + 1))

theorem runMetrics_dies (env : WinEnv) (p : Process)
    (hty : p.ty = PyType.psutilProcess) :
    ∀ (tl : List METRIC) (idx k : Nat),
      (∀ j, j < k → env.alive (idx + j) = true) →
      env.alive (idx + k) = false →
      k < tl.length →
      (∀ m ∈ tl, ∀ b,
        gather_metric m.method m.attr m.transform env b p ≠ .raised .attrError) →
      (runMetrics env p idx tl).2.2 = .raised .noSuchProcess ∧
      ((runMetrics env p idx tl).2.1).length = k := by
  intro tl
  induction tl with
  | nil => intro idx k _ _ hk _; simp at hk
  | cons m rest ih =>
    intro idx k halive hdead hk hgood
    cases k with
    | zero =>
      have hal : env.alive idx = false := by simpa using hdead
      unfold runMetrics
      rw [hal, gather_metric_dead m.method m.attr m.transform env p hty]
      exact ⟨rfl, rfl⟩
    | succ k2 =>
      have hal : env.alive idx = true := by
        have := halive 0 (Nat.succ_pos k2)
        simpa using this
      unfold runMetrics
      rw [hal]
      have hnot := hgood m (List.mem_cons_self m rest) true
      rcases gather_metric_alive_cases m.method m.attr m.transform env p hty
        with hbad | ⟨v, hv⟩
      · exact absurd hbad hnot
      · rw [hv]
        dsimp only
        have hrest := ih (idx + 1) k2
          (fun j hj => by
            have := halive (j + 1) (Nat.succ_lt_succ hj)
            rwa [show idx + (j + 1) = idx + 1 + j by omega] at this)
          (by rwa [show idx + (k2 + 1) = idx + 1 + k2 by omega] at hdead)
          (by simpa using hk)
          (fun m2 hm2 b => hgood m2 (List.mem_cons_of_mem m hm2) b)
        refine ⟨hrest.1, ?_⟩
        dsimp only [List.length]
        rw [hrest.2]

end WinProc

namespace WinProc

/-- C4 amended: when the target is resolved as a process of the exact
psutil.Process type that stays alive through the cycle, exactly eighteen
metrics are emitted, one per entry of the METRICS table in order, each
carrying the exact extracted value and the entry's declared extra_fields
with the app dimension set to the instance id.  (The claim says fifteen;
the table has eighteen entries, refuted in C4_cex.) -/
theorem C4_theorem (cu cs ct nt ws pws pp ppp np pnp pf ppf rs vm rc wc rb wb
    now2 : Int) (idv : String) :
    (gather_sample
      ⟨.found ⟨.psutilProcess, cu, cs, ct, nt, ws, pws, pp, ppp, np, pnp,
        pf, ppf, rs, vm, rc, wc, rb, wb⟩,
       fun _ => true, now2, idv⟩
      ⟨none, METRICS⟩).2.1 =
      [ ⟨"winproc.cpu", cu, [("type", "user"), ("app", idv)]⟩,
        ⟨"winproc.cpu", cs, [("type", "system"), ("app", idv)]⟩,
        ⟨"winproc.uptime", now2 - ct, [("app", idv)]⟩,
        ⟨"winproc.threads", nt, [("app", idv)]⟩,
        ⟨"winproc.mem.bytes", ws, [("type", "working_set"), ("app", idv)]⟩,
        ⟨"winproc.mem.bytes", pws, [("type", "peak_working_set"), ("app", idv)]⟩,
        ⟨"winproc.mem.bytes", pp, [("type", "paged_pool"), ("app", idv)]⟩,
        ⟨"winproc.mem.bytes", ppp, [("type", "peak_paged_pool"), ("app", idv)]⟩,
        ⟨"winproc.mem.bytes", np, [("type", "nonpaged_pool"), ("app", idv)]⟩,
        ⟨"winproc.mem.bytes", pnp, [("type", "peak_nonpaged_pool"), ("app", idv)]⟩,
        ⟨"winproc.mem.bytes", pf, [("type", "pagefile"), ("app", idv)]⟩,
        ⟨"winproc.mem.bytes", ppf, [("type", "peak_pagefile"), ("app", idv)]⟩,
        ⟨"winproc.mem.bytes", rs, [("type", "rss"), ("app", idv)]⟩,
        ⟨"winproc.mem.bytes", vm, [("type", "vms"), ("app", idv)]⟩,
        ⟨"winproc.disk.ops", rc, [("type", "read"), ("app", idv)]⟩,
        ⟨"winproc.disk.ops", wc, [("type", "write"), ("app", idv)]⟩,
        ⟨"winproc.disk.bytes", rb, [("type", "read"), ("app", idv)]⟩,
        ⟨"winproc.disk.bytes", wb, [("type", "write"), ("app", idv)]⟩ ] := rfl

/-- C4 counterexample: on a fully successful cycle eighteen metrics are
emitted, not fifteen. -/
theorem C4_cex :
    ((gather_sample envAll winInit).2.1).length = 18 ∧
    ¬ (((gather_sample envAll winInit).2.1).length = 15) := by decide

/-- C5 amended: a gather cycle leaves every entry of the metric table
either unchanged or with the app key inserted into its extra_fields dict
(the in-place mutation of the shared declared mapping); metric name,
cumulative flag, category, unit and the dispatch data are never changed.
(The claim that no field changes at all is refuted by C5_cex.) -/
theorem C5_theorem (env : WinEnv) (s : ProcessMonitor) :
    List.Forall₂ (fun m m2 => m2 = m ∨ m2 = setApp env.id m)
      s.table (gather_sample env s).1.table := by
  unfold gather_sample
  cases hsel : env.select with
  | raisesNSP =>
    dsimp only
    exact List.forall₂_same.mpr (fun x _ => Or.inl rfl)
  | target_none =>
    dsimp only
    exact List.forall₂_same.mpr (fun x _ => Or.inl rfl)
  | found p =>
    dsimp only
    rcases hr : runMetrics env p 0 s.table with ⟨table2, ems, r⟩
    have hrel := runMetrics_table_rel env p s.table 0
    rw [hr] at hrel
    dsimp only at hrel
    cases r with
    | ok u => exact hrel
    | raised e => cases e <;> exact hrel

/-- C5 counterexample: one successful cycle mutates the shared table: the
first entry's declared extra_fields gains the app key. -/
theorem C5_cex :
    (gather_sample envAll winInit).1.table ≠ METRICS ∧
    ((gather_sample envAll winInit).1.table.map
      (fun m => m.config.extra_fields)).head? =
        some [("type", "user"), ("app", "test")] ∧
    (METRICS.map (fun m => m.config.extra_fields)).head? =
        some [("type", "user")] := by decide

/-- C9: if the resolved process disappears after metric k has been emitted
and before metric k+1 (every extraction before that succeeding), the cycle
emits exactly the first k metrics of the table, gather_sample returns
without raising, and the cached process reference is cleared to None. -/
theorem C9_theorem (env : WinEnv) (s : ProcessMonitor) (p : Process) (k : Nat)
    (hsel : env.select = .found p) (hty : p.ty = PyType.psutilProcess)
    (halive : ∀ j, j < k → env.alive j = true)
    (hdead : env.alive k = false)
    (hk : k < s.table.length)
    (hgood : ∀ m ∈ s.table, ∀ b,
      gather_metric m.method m.attr m.transform env b p ≠ .raised .attrError) :
    (gather_sample env s).1.process = none ∧
    (gather_sample env s).2.2 = .ok () ∧
    ((gather_sample env s).2.1).length = k ∧
    ((gather_sample env s).2.1).map WEmission.metric_name =
      (s.table.take k).map (fun m => m.config.metric_name) := by
  have hrun := runMetrics_dies env p hty s.table 0 k
    (fun j hj => by simpa using halive j hj)
    (by simpa using hdead) hk hgood
  have hnames := runMetrics_names env p s.table 0
  unfold gather_sample
  rw [hsel]
  dsimp only
  rcases hr : runMetrics env p 0 s.table with ⟨table2, ems, r⟩
  rw [hr] at hrun hnames
  dsimp only at hrun hnames
  obtain ⟨h1, h2⟩ := hrun
  subst h1
  dsimp only
  rw [h2] at hnames
  exact ⟨rfl, rfl, h2, hnames⟩

/-- C9 witness: the concrete cycle where the process dies after the second
metric emits exactly the first two metrics, returns normally, and clears
the cached reference. -/
theorem C9_witness :
    (gather_sample envDie winInit).1.process = none ∧
    (gather_sample envDie winInit).2.2 = .ok () ∧
    ((gather_sample envDie winInit).2.1).length = 2 ∧
    ((gather_sample envDie winInit).2.1).map WEmission.metric_name =
      (winInit.table.take 2).map (fun m => m.config.metric_name) :=
  C9_theorem envDie winInit procAll 2 rfl rfl
    (fun j hj => decide_eq_true hj) (by decide) (by decide) (by decide)

/-- C10: every metric extraction closure produced by _gather_metric checks
the exact runtime type first: applied to any object that is not exactly a
psutil.Process it raises an AssertionError, whatever the method, member,
transform, liveness or field values, so the table's extractors cannot be
evaluated against a fake process object. -/
theorem C10_theorem (m : PMethod) (a : Option PField) (tr : Bool)
    (env : WinEnv) (alv : Bool) (p : Process)
    (h : p.ty ≠ PyType.psutilProcess) :
    gather_metric m a tr env alv p = .raised .assertionError := by
  unfold gather_metric
  rw [if_pos h]

/-- C10 witness: the user-CPU extractor applied to the fake process raises
the assertion failure. -/
theorem C10_witness :
    gather_metric .cpu_times (some .user) false envAll true procFake =
      .raised .assertionError :=
  C10_theorem .cpu_times (some .user) false envAll true procFake (by decide)

end WinProc

/-- C8 amended: within one cycle the Process Metrics Poller emits in the
fixed declaration order of the METRICS table (the emitted names are an
in-order prefix of the table names); the Database Stats Poller emits the
size metric first and then the statistics columns in the iteration order
of the statistics dict keys, a fixed but implementation-defined
permutation, so its emission order need not follow the declaration order
of its metric table (refuted as stated by C8_cex). -/
theorem C8_theorem :
    (∀ (env : WinProc.WinEnv) (s : WinProc.ProcessMonitor),
      ((WinProc.gather_sample env s).2.1).map WinProc.WEmission.metric_name =
      (s.table.take ((WinProc.gather_sample env s).2.1).length).map
        (fun m => m.config.metric_name)) ∧
    (∀ (env : Postgres.PgEnv) (s : Postgres.PgState) (v : Int)
      (fields : List String) (row : List Int),
      env.connectOutcome s.calls = .success →
      env.sizeQuery = .ok v →
      env.statsQuery = .ok (fields, some row) →
      (Postgres.gather_sample env s).2.1.emissions =
        ⟨"postgres.database.size", v, none⟩ ::
          Postgres.emitStats env.statsKeyOrder
            (env.statsKeyOrder.filterMap
              (fun k => (Postgres.pyDictGet (fields.zip row) k).map
                (fun w => (k, w))))) := by
  constructor
  · intro env s
    unfold WinProc.gather_sample
    cases hsel : env.select with
    | raisesNSP => rfl
    | target_none => rfl
    | found p =>
      dsimp only
      rcases hr : WinProc.runMetrics env p 0 s.table with ⟨table2, ems, r⟩
      have hnames := WinProc.runMetrics_names env p s.table 0
      rw [hr] at hnames
      dsimp only at hnames
      cases r with
      | ok u => exact hnames
      | raised e => cases e <;> exact hnames
  · intro env s v fields row hc hsz hst
    rw [Postgres.gather_full_success env s v fields row hc hsz hst]

/-- C8 counterexample: in a fully successful postgres cycle whose dict key
iteration order is the reversed declaration order (a permutation CPython
may use), the positions of the emitted metrics within the declared metric
list are not nondecreasing: the size metric, declared last, is emitted
first, and the statistics follow the dict order, so the emission sequence
does not follow the declaration order of the metric table. -/
theorem C8_cex :
    Postgres.C8env.statsKeyOrder.Perm Postgres.statKeys ∧
    nondecr
      (((Postgres.gather_sample Postgres.C8env Postgres.pgInit).2.1.emissions).filterMap
        (fun e => Postgres.declIdx Postgres.declaredEmissionOrder
          (e.metric_name, e.extra_fields))) = false := by
  constructor
  · exact List.reverse_perm Postgres.statKeys
  · decide

/-- C8 witness: both parts of the amended statement at concrete cycles. -/
theorem C8_witness :
    (((WinProc.gather_sample WinProc.envAll WinProc.winInit).2.1).map
        WinProc.WEmission.metric_name =
      (WinProc.winInit.table.take
        ((WinProc.gather_sample WinProc.envAll WinProc.winInit).2.1).length).map
        (fun m => m.config.metric_name)) ∧
    (Postgres.gather_sample Postgres.CWenv Postgres.pgInit).2.1.emissions =
      ⟨"postgres.database.size", 42, none⟩ ::
        Postgres.emitStats Postgres.CWenv.statsKeyOrder
          (Postgres.CWenv.statsKeyOrder.filterMap
            (fun k => (Postgres.pyDictGet (List.zip ["numbackends"] [7]) k).map
              (fun w => (k, w)))) :=
  ⟨C8_theorem.1 WinProc.envAll WinProc.winInit,
   C8_theorem.2 Postgres.CWenv Postgres.pgInit 42 ["numbackends"] [7] rfl rfl rfl⟩
